import Mathlib

/-!
Verification development for the apcore ActivityPub server framework core.

The definitions below are shallow embeddings of the Go source:
  - src/ap_actor.go      : newActor (actor behavior composition)
  - src/framework.go     : framework.Send, framework.ValidateOAuth2AccessToken
  - src/config.go        : configuration structures and their defaults
  - src/unnamed/part_000 : the apdb storage implementation (pub.Database)

Go pointers to URLs and the opaque vocab.Type values are modeled as Strings;
a Go `error` result is `Option String` (`none` is the nil error, `some msg`
an error carrying the fmt.Errorf message); Go named-return zero values are
`none`, `false`, `0` or `""` as appropriate.
-/

namespace Apcore

/-- The three composed actor behavior variants of the spec's
ActorBehaviorComposer: C2S-only (pub.NewSocialActor), S2S-only
(pub.NewFederatingActor), and combined (pub.NewActor). -/
inductive ActorVariant where
  | socialOnly
  | federatingOnly
  | combined
  deriving DecidableEq

/-- newActor (src/ap_actor.go, lines 25-62).  Go declares named returns
`(actor pub.Actor, err error)`, both starting nil; the branch chain tests
`!cs && !ss`, then `cs && ss`, then `cs`, then `ss`, and a fall-through
(unreachable, since the four tests are exhaustive) would leave both nil.
The result abstracts the constructed actor to its variant. -/
def newActor (cs ss : Bool) : Option ActorVariant × Option String :=
  if ¬cs ∧ ¬ss then
    (none, some "neither C2S nor S2S are enabled by the Application")
  else if cs ∧ ss then
    (some ActorVariant.combined, none)
  else if cs then
    (some ActorVariant.socialOnly, none)
  else if ss then
    (some ActorVariant.federatingOnly, none)
  else
    (none, none)

/-- Modelled from the spec: whether the composed actor satisfies the external
go-fed pub.FederatingActor interface.  The go-fed pub package is not part of
src; per the spec, `Send` succeeds only for the federating-only and combined
variants, i.e. the actors built by pub.NewFederatingActor and pub.NewActor. -/
def supportsOutboundFederation : ActorVariant → Bool
  | ActorVariant.socialOnly => false
  | ActorVariant.federatingOnly => true
  | ActorVariant.combined => true

/-- framework.Send (src/framework.go, lines 84-92): fails when federation is
not enabled; otherwise fails when the composed actor is not a
pub.FederatingActor; otherwise delegates to the federating actor's Send and
returns its error result.  The context, outbox IRI and activity influence the
outcome only through the delegated call, abstracted as `delegateResult`. -/
def frameworkSend (federationEnabled : Bool) (actor : ActorVariant)
    (delegateResult : Option String) : Option String :=
  if ¬federationEnabled then
    some "cannot Send: Framework.Send called when federation is not enabled"
  else if ¬supportsOutboundFederation actor then
    some "cannot Send: pub.Actor is not a pub.FederatingActor with federation enabled"
  else
    delegateResult

/-- The two failure messages of framework.Send are the spec's
UnsupportedOperation error kind. -/
def isUnsupportedOperation (e : Option String) : Bool :=
  e == some "cannot Send: Framework.Send called when federation is not enabled" ||
  e == some "cannot Send: pub.Actor is not a pub.FederatingActor with federation enabled"

/-- serverConfig (src/config.go, lines 54-70). -/
structure serverConfig where
  Host : String
  CertFile : String
  KeyFile : String
  CookieAuthKeyFile : String
  CookieEncryptionKeyFile : String
  CookieMaxAge : Int
  CookieSessionName : String
  HttpsReadTimeoutSeconds : Int
  HttpsWriteTimeoutSeconds : Int
  RedirectReadTimeoutSeconds : Int
  RedirectWriteTimeoutSeconds : Int
  StaticRootDirectory : String
  SaltSize : Int
  BCryptStrength : Int
  RSAKeySize : Int
  deriving DecidableEq

/-- defaultServerConfig (src/config.go, lines 72-79); unset Go fields keep
their zero values, and bcrypt.DefaultCost is the Go library constant 10. -/
def defaultServerConfig : serverConfig :=
  { Host := ""
    CertFile := ""
    KeyFile := ""
    CookieAuthKeyFile := ""
    CookieEncryptionKeyFile := ""
    CookieMaxAge := 86400
    CookieSessionName := ""
    HttpsReadTimeoutSeconds := 0
    HttpsWriteTimeoutSeconds := 0
    RedirectReadTimeoutSeconds := 0
    RedirectWriteTimeoutSeconds := 0
    StaticRootDirectory := ""
    SaltSize := 32
    BCryptStrength := 10
    RSAKeySize := 1024 }

/-- oAuthConfig (src/config.go, lines 81-84). -/
structure oAuthConfig where
  AccessTokenExpiry : Int
  RefreshTokenExpiry : Int
  deriving DecidableEq

/-- defaultOAuthConfig (src/config.go, lines 86-91). -/
def defaultOAuthConfig : oAuthConfig :=
  { AccessTokenExpiry := 3600
    RefreshTokenExpiry := 7200 }

/-- postgresConfig (src/config.go, lines 159-171). -/
structure postgresConfig where
  DatabaseName : String
  UserName : String
  Host : String
  Port : Int
  SSLMode : String
  FallbackApplicationName : String
  ConnectTimeout : Int
  SSLCert : String
  SSLKey : String
  SSLRootCert : String
  Schema : String
  deriving DecidableEq

/-- The Go zero value `postgresConfig\x7b\x7d`. -/
def zeroPostgresConfig : postgresConfig :=
  { DatabaseName := ""
    UserName := ""
    Host := ""
    Port := 0
    SSLMode := ""
    FallbackApplicationName := ""
    ConnectTimeout := 0
    SSLCert := ""
    SSLKey := ""
    SSLRootCert := ""
    Schema := "" }

/-- defaultPostgresConfig (src/config.go, lines 173-175): the zero value. -/
def defaultPostgresConfig : postgresConfig := zeroPostgresConfig

/-- databaseConfig (src/config.go, lines 94-101). -/
structure databaseConfig where
  DatabaseKind : String
  ConnMaxLifetimeSeconds : Int
  MaxOpenConns : Int
  MaxIdleConns : Int
  DefaultCollectionPageSize : Int
  PostgresConfig : postgresConfig
  deriving DecidableEq

/-- defaultDatabaseConfig (src/config.go, lines 103-118): builds the struct
with MaxIdleConns 2 and DefaultCollectionPageSize 10, then errors for any
dbkind other than "postgres"; for "postgres" it also fills in the postgres
sub-config. -/
def defaultDatabaseConfig (dbkind : String) : databaseConfig × Option String :=
  if dbkind ≠ "postgres" then
    ({ DatabaseKind := dbkind
       ConnMaxLifetimeSeconds := 0
       MaxOpenConns := 0
       MaxIdleConns := 2
       DefaultCollectionPageSize := 10
       PostgresConfig := zeroPostgresConfig },
     some ("unsupported database kind: " ++ dbkind))
  else
    ({ DatabaseKind := dbkind
       ConnMaxLifetimeSeconds := 0
       MaxOpenConns := 0
       MaxIdleConns := 2
       DefaultCollectionPageSize := 10
       PostgresConfig := defaultPostgresConfig },
     none)

/-- httpSignaturesConfig (src/config.go, lines 142-147). -/
structure httpSignaturesConfig where
  Algorithms : List String
  DigestAlgorithm : String
  GetHeaders : List String
  PostHeaders : List String
  deriving DecidableEq

/-- defaultHttpSignaturesConfig (src/config.go, lines 149-156). -/
def defaultHttpSignaturesConfig : httpSignaturesConfig :=
  { Algorithms := ["sha256", "sha512"]
    DigestAlgorithm := "SHA-256"
    GetHeaders := ["(request-target)", "Date", "Digest"]
    PostHeaders := ["(request-target)", "Date", "Digest"] }

/-- activityPubConfig (src/config.go, lines 121-128).  The Go
OutboundRateLimitQPS field is a float64; the defaults in question are exact
small integers, modeled in ℚ. -/
structure activityPubConfig where
  ClockTimezone : String
  OutboundRateLimitQPS : ℚ
  OutboundRateLimitBurst : Int
  HttpSignaturesConfig : httpSignaturesConfig
  MaxInboxForwardingRecursionDepth : Int
  MaxDeliveryRecursionDepth : Int
  deriving DecidableEq

/-- defaultActivityPubConfig (src/config.go, lines 130-139). -/
def defaultActivityPubConfig : activityPubConfig :=
  { ClockTimezone := "UTC"
    OutboundRateLimitQPS := 10
    OutboundRateLimitBurst := 50
    HttpSignaturesConfig := defaultHttpSignaturesConfig
    MaxInboxForwardingRecursionDepth := 50
    MaxDeliveryRecursionDepth := 50 }

/-- config (src/config.go, lines 31-36). -/
structure config where
  ServerConfig : serverConfig
  OAuthConfig : oAuthConfig
  DatabaseConfig : databaseConfig
  ActivityPubConfig : activityPubConfig
  deriving DecidableEq

/-- defaultConfig (src/config.go, lines 38-51): on a database-config error it
returns before assigning the config pointer, so the config result stays nil. -/
def defaultConfig (dbkind : String) : Option config × Option String :=
  match defaultDatabaseConfig dbkind with
  | (_, some e) => (none, some e)
  | (dbc, none) =>
    (some { ServerConfig := defaultServerConfig
            OAuthConfig := defaultOAuthConfig
            DatabaseConfig := dbc
            ActivityPubConfig := defaultActivityPubConfig },
     none)

namespace apdb

/-- apdb.Lock (src/unnamed/part_000, lines 39-42): a TODO stub whose body is
`return nil`, so it succeeds immediately for every identifier. -/
def Lock (_id : String) : Option String := none

/-- apdb.Unlock (src/unnamed/part_000, lines 44-47): a TODO stub returning
nil unconditionally. -/
def Unlock (_id : String) : Option String := none

/-- apdb.InboxContains (src/unnamed/part_000, lines 49-52): TODO stub; the
named returns keep their zero values (false, nil). -/
def InboxContains (_inbox _id : String) : Bool × Option String := (false, none)

/-- apdb.GetInbox (src/unnamed/part_000, lines 54-57): TODO stub; zero-value
returns (nil page, nil error). -/
def GetInbox (_inboxIRI : String) : Option String × Option String := (none, none)

/-- apdb.SetInbox (src/unnamed/part_000, lines 59-62): TODO stub, returns nil. -/
def SetInbox (_inbox : String) : Option String := none

/-- apdb.Owns (src/unnamed/part_000, lines 64-67): TODO stub; zero-value
returns (false, nil). -/
def Owns (_id : String) : Bool × Option String := (false, none)

/-- apdb.ActorForOutbox (src/unnamed/part_000, lines 69-72): TODO stub;
zero-value returns (nil IRI, nil error). -/
def ActorForOutbox (_outboxIRI : String) : Option String × Option String := (none, none)

/-- apdb.ActorForInbox (src/unnamed/part_000, lines 74-77): TODO stub;
zero-value returns (nil IRI, nil error). -/
def ActorForInbox (_inboxIRI : String) : Option String × Option String := (none, none)

/-- apdb.OutboxForInbox (src/unnamed/part_000, lines 79-82): TODO stub;
zero-value returns (nil IRI, nil error). -/
def OutboxForInbox (_inboxIRI : String) : Option String × Option String := (none, none)

/-- apdb.Exists (src/unnamed/part_000, lines 84-87): TODO stub; zero-value
returns (false, nil). -/
def Exists (_id : String) : Bool × Option String := (false, none)

/-- apdb.Get (src/unnamed/part_000, lines 89-92): TODO stub; zero-value
returns (nil object, nil error). -/
def Get (_id : String) : Option String × Option String := (none, none)

/-- apdb.Create (src/unnamed/part_000, lines 94-97): TODO stub, returns nil
for every object. -/
def Create (_asType : String) : Option String := none

/-- apdb.Update (src/unnamed/part_000, lines 99-102): TODO stub, returns nil
for every object. -/
def Update (_asType : String) : Option String := none

/-- apdb.Delete (src/unnamed/part_000, lines 104-107): TODO stub, returns nil
for every identifier. -/
def Delete (_id : String) : Option String := none

/-- apdb.GetOutbox (src/unnamed/part_000, lines 109-112): TODO stub;
zero-value returns (nil page, nil error). -/
def GetOutbox (_inboxIRI : String) : Option String × Option String := (none, none)

/-- apdb.SetOutbox (src/unnamed/part_000, lines 114-117): TODO stub, returns
nil. -/
def SetOutbox (_inbox : String) : Option String := none

/-- apdb.NewId (src/unnamed/part_000, lines 119-122): TODO stub; zero-value
returns (nil id, nil error). -/
def NewId (_t : String) : Option String × Option String := (none, none)

/-- apdb.Followers (src/unnamed/part_000, lines 124-127): TODO stub;
zero-value returns (nil collection, nil error). -/
def Followers (_actorIRI : String) : Option String × Option String := (none, none)

/-- apdb.Following (src/unnamed/part_000, lines 129-132): TODO stub;
zero-value returns (nil collection, nil error). -/
def Following (_actorIRI : String) : Option String × Option String := (none, none)

/-- apdb.Liked (src/unnamed/part_000, lines 134-137): TODO stub; zero-value
returns (nil collection, nil error). -/
def Liked (_actorIRI : String) : Option String × Option String := (none, none)

end apdb

/-- One acquisition or release event against the stubbed lock interface.  A
state is the list of currently outstanding successful Lock calls (one entry
per Lock without a matching Unlock).  Because apdb.Lock and apdb.Unlock
(src/unnamed/part_000, lines 39-47) return nil unconditionally, an acquire
step carries no precondition: it succeeds in every state, even when the same
identifier is already held. -/
inductive LockStep : List String → List String → Prop
  | lock (s : List String) (id : String) : LockStep s (id :: s)
  | unlock (s : List String) (id : String) : LockStep s (s.erase id)

/-- The lock-manager states reachable from the initial (no holder) state by
acquire/release steps of the stubbed implementation. -/
inductive LockReachable : List String → Prop
  | init : LockReachable []
  | step {s t : List String} : LockReachable s → LockStep s t → LockReachable t

/-- Modelled from the spec: the oAuth2Server credential validator is not part
of src (framework.ValidateOAuth2AccessToken, src/framework.go lines 80-82,
only delegates to it).  A request presents no credential, a well-formed but
invalid (malformed or revoked) credential, or a valid credential carrying a
token. -/
inductive CredentialPresentation where
  | noCredential
  | malformedOrRevoked
  | valid (token : Nat)
  deriving DecidableEq

/-- Modelled from the spec: the credential-validation subsystem either works
or itself fails (e.g. the credential store is unavailable). -/
inductive CredentialSubsystem where
  | healthy
  | failing (msg : String)
  deriving DecidableEq

/-- Modelled from the spec: oAuth2Server.ValidateOAuth2AccessToken, absent
from src.  Per the spec it distinguishes three outcomes: a valid credential
yields (token, authenticated, nil error); no credential or a malformed or
revoked credential yields not-authenticated with a nil error; a subsystem
failure yields a non-nil error, with the token and flag meaningless. -/
def oAuth2ServerValidate :
    CredentialSubsystem → CredentialPresentation → Option Nat × Bool × Option String
  | CredentialSubsystem.failing msg, _ => (none, false, some msg)
  | CredentialSubsystem.healthy, CredentialPresentation.noCredential => (none, false, none)
  | CredentialSubsystem.healthy, CredentialPresentation.malformedOrRevoked => (none, false, none)
  | CredentialSubsystem.healthy, CredentialPresentation.valid t => (some t, true, none)

/-- framework.ValidateOAuth2AccessToken (src/framework.go, lines 80-82):
pure delegation to the oAuth2Server's validator. -/
def ValidateOAuth2AccessToken (s : CredentialSubsystem) (c : CredentialPresentation) :
    Option Nat × Bool × Option String :=
  oAuth2ServerValidate s c

/-- Modelled from the spec: a reply chain as traversed by inbox forwarding
(the go-fed traversal code is not part of src; src/config.go lines 126-127
only configure its two depth ceilings).  A node is an object identifier
together with the finitely many replies branching from it. -/
inductive ReplyTree where
  | node (id : String) (replies : List ReplyTree)

mutual

/-- Modelled from the spec: the bounded inbox-forwarding traversal, absent
from src.  At recursion depth d with configured maximum m it stops — treating
the unexplored branch as "do not forward", not as an error — exactly when m
is a positive ceiling already reached (m > 0 and d ≥ m); a configured depth
of zero means unlimited.  Otherwise the node is forwarded and its replies are
explored one level deeper. -/
def forwardTree (m d : Nat) : ReplyTree → List String
  | ReplyTree.node i rs =>
    if 0 < m ∧ m ≤ d then []
    else i :: forwardForest m (d + 1) rs

/-- Modelled from the spec: the traversal over a list of sibling replies. -/
def forwardForest (m d : Nat) : List ReplyTree → List String
  | [] => []
  | t :: ts => forwardTree m d t ++ forwardForest m d ts

end

mutual

/-- Every node of a reply tree, paired with its depth, the root counting as
depth d. -/
def nodesTree (d : Nat) : ReplyTree → List (String × Nat)
  | ReplyTree.node i rs => (i, d) :: nodesForest (d + 1) rs

/-- Every node of a list of sibling reply trees, paired with its depth. -/
def nodesForest (d : Nat) : List ReplyTree → List (String × Nat)
  | [] => []
  | t :: ts => nodesTree d t ++ nodesForest d ts

end

/-- The Boolean forwarding predicate a node must pass: a configured depth of
zero keeps everything, and a positive configured depth keeps exactly the
nodes strictly above the ceiling. -/
def keep (m : Nat) (p : String × Nat) : Bool :=
  m == 0 || decide (p.2 < m)

/-- C1: the actor composer is exactly the four-case function of the two
capability flags (C2S enabled, S2S enabled): both false yields a startup
error and no actor; C2S only yields the social-only variant; S2S only yields
the federating-only variant; both yield the combined variant.  The four cases
enumerate the whole flag domain, so exactly one variant is selected and the
selection depends on nothing but the two flags. -/
theorem newActor_four_cases :
    newActor false false = (none, some "neither C2S nor S2S are enabled by the Application") ∧
    newActor true false = (some ActorVariant.socialOnly, none) ∧
    newActor false true = (some ActorVariant.federatingOnly, none) ∧
    newActor true true = (some ActorVariant.combined, none) := by
  refine ⟨?_, ?_, ?_, ?_⟩ <;> decide

/-- C2: for every federation flag, composed actor variant and delegated
result, Send returns the federating actor's own result exactly when
federation is enabled and the variant is federating-only or combined, and
otherwise fails with an UnsupportedOperation error. -/
theorem frameworkSend_gate (fed : Bool) (actor : ActorVariant) (res : Option String) :
    if fed = true ∧ (actor = ActorVariant.federatingOnly ∨ actor = ActorVariant.combined)
      then frameworkSend fed actor res = res
      else isUnsupportedOperation (frameworkSend fed actor res) = true := by
  cases fed <;> cases actor <;>
    simp [frameworkSend, supportsOutboundFederation, isUnsupportedOperation]

/-- C6: credential validation is tri-state: with a healthy subsystem, no
credential or a malformed or revoked credential yields not-authenticated with
a nil error, a valid credential yields the token with authenticated true and
a nil error, and the error is non-nil exactly when the subsystem itself
fails. -/
theorem validateOAuth2AccessToken_tri_state
    (c : CredentialPresentation) (t : Nat) (msg : String) :
    ValidateOAuth2AccessToken CredentialSubsystem.healthy
      CredentialPresentation.noCredential = (none, false, none) ∧
    ValidateOAuth2AccessToken CredentialSubsystem.healthy
      CredentialPresentation.malformedOrRevoked = (none, false, none) ∧
    ValidateOAuth2AccessToken CredentialSubsystem.healthy
      (CredentialPresentation.valid t) = (some t, true, none) ∧
    (ValidateOAuth2AccessToken CredentialSubsystem.healthy c).2.2 = none ∧
    (ValidateOAuth2AccessToken (CredentialSubsystem.failing msg) c).2.2 = some msg := by
  refine ⟨rfl, rfl, rfl, ?_, ?_⟩ <;> cases c <;> rfl

/-- C8: the default configuration satisfies every constraint of the
configuration surface: positive steady-state rate (10), positive burst (50),
nonnegative recursion depths (50 each), positive default collection page size
(10), and GET and POST signed-header lists each containing
"(request-target)", "Date" and "Digest". -/
theorem defaultConfig_surface_constraints :
    0 < defaultActivityPubConfig.OutboundRateLimitQPS ∧
    defaultActivityPubConfig.OutboundRateLimitQPS = 10 ∧
    0 < defaultActivityPubConfig.OutboundRateLimitBurst ∧
    defaultActivityPubConfig.OutboundRateLimitBurst = 50 ∧
    0 ≤ defaultActivityPubConfig.MaxInboxForwardingRecursionDepth ∧
    defaultActivityPubConfig.MaxInboxForwardingRecursionDepth = 50 ∧
    0 ≤ defaultActivityPubConfig.MaxDeliveryRecursionDepth ∧
    defaultActivityPubConfig.MaxDeliveryRecursionDepth = 50 ∧
    0 < (defaultDatabaseConfig "postgres").1.DefaultCollectionPageSize ∧
    (defaultDatabaseConfig "postgres").1.DefaultCollectionPageSize = 10 ∧
    "(request-target)" ∈ defaultHttpSignaturesConfig.GetHeaders ∧
    "Date" ∈ defaultHttpSignaturesConfig.GetHeaders ∧
    "Digest" ∈ defaultHttpSignaturesConfig.GetHeaders ∧
    "(request-target)" ∈ defaultHttpSignaturesConfig.PostHeaders ∧
    "Date" ∈ defaultHttpSignaturesConfig.PostHeaders ∧
    "Digest" ∈ defaultHttpSignaturesConfig.PostHeaders := by
  decide

/-- C10: defaultConfig fails (nil config, non-nil error) for every database
kind other than "postgres", and for "postgres" it succeeds with a config
whose database kind is "postgres", whose MaxIdleConns is 2 and whose
DefaultCollectionPageSize is 10. -/
theorem defaultConfig_postgres_spec (dbkind : String) (h : dbkind ≠ "postgres") :
    defaultConfig dbkind = (none, some ("unsupported database kind: " ++ dbkind)) ∧
    (defaultConfig "postgres").2 = none ∧
    ∃ c, (defaultConfig "postgres").1 = some c ∧
      c.DatabaseConfig.DatabaseKind = "postgres" ∧
      c.DatabaseConfig.MaxIdleConns = 2 ∧
      c.DatabaseConfig.DefaultCollectionPageSize = 10 := by
  have hdb :
      defaultDatabaseConfig dbkind =
        ({ DatabaseKind := dbkind
           ConnMaxLifetimeSeconds := 0
           MaxOpenConns := 0
           MaxIdleConns := 2
           DefaultCollectionPageSize := 10
           PostgresConfig := zeroPostgresConfig },
         some ("unsupported database kind: " ++ dbkind)) := by
    unfold defaultDatabaseConfig
    rw [if_pos h]
  refine ⟨?_, by decide, ?_⟩
  · unfold defaultConfig
    rw [hdb]
  · exact ⟨{ ServerConfig := defaultServerConfig
             OAuthConfig := defaultOAuthConfig
             DatabaseConfig := (defaultDatabaseConfig "postgres").1
             ActivityPubConfig := defaultActivityPubConfig },
      by decide, by decide, by decide, by decide⟩

/-- Witness for C10 at the concrete kind "mysql". -/
theorem defaultConfig_postgres_spec_witness :
    "mysql" ≠ "postgres" ∧
    (defaultConfig "mysql" = (none, some ("unsupported database kind: " ++ "mysql")) ∧
     (defaultConfig "postgres").2 = none ∧
     ∃ c, (defaultConfig "postgres").1 = some c ∧
       c.DatabaseConfig.DatabaseKind = "postgres" ∧
       c.DatabaseConfig.MaxIdleConns = 2 ∧
       c.DatabaseConfig.DefaultCollectionPageSize = 10) :=
  ⟨by decide, defaultConfig_postgres_spec "mysql" (by decide)⟩

/-- C3 fails on the stubbed store: at the failing input, create succeeds (nil
error), the second identical create also returns a nil error instead of a
Conflict, and get returns no object at all (zero values) instead of the
created one. -/
theorem create_get_create_stub :
    apdb.Create "https://example.com/note/1" = none ∧
    apdb.Get "https://example.com/note/1" = (none, none) ∧
    apdb.Create "https://example.com/note/1" = none :=
  ⟨rfl, rfl, rfl⟩

/-- C4 fails on the stubbed store: for an identifier that was never created,
get returns zero values with a nil error and update and delete both succeed
with a nil error, none of them failing with NotFound. -/
theorem never_created_stub :
    apdb.Get "https://example.com/absent" = (none, none) ∧
    apdb.Update "https://example.com/absent" = none ∧
    apdb.Delete "https://example.com/absent" = none :=
  ⟨rfl, rfl, rfl⟩

/-- C5 fails on the stubbed lock manager: Lock unconditionally returns a nil
error, so a second acquire of an already-held identifier succeeds
immediately, and a state with two simultaneous holders of the same
identifier is reachable in two acquire steps. -/
theorem lock_stub_two_holders :
    apdb.Lock "https://example.com/actor/1" = none ∧
    LockReachable ["https://example.com/actor/1", "https://example.com/actor/1"] ∧
    (["https://example.com/actor/1", "https://example.com/actor/1"].count
      "https://example.com/actor/1") = 2 := by
  refine ⟨rfl, ?_, by decide⟩
  exact LockReachable.step
    (LockReachable.step LockReachable.init (LockStep.lock [] "https://example.com/actor/1"))
    (LockStep.lock ["https://example.com/actor/1"] "https://example.com/actor/1")

/-- C9: every operation of the stubbed apdb storage returns a nil error and
only zero values (no object, false, nil identifier), for every input; in
particular Lock and Unlock succeed immediately for every identifier. -/
theorem apdb_stub_zero_values (inbox id v page t : String) :
    apdb.Lock id = none ∧
    apdb.Unlock id = none ∧
    apdb.InboxContains inbox id = (false, none) ∧
    apdb.GetInbox inbox = (none, none) ∧
    apdb.SetInbox page = none ∧
    apdb.Owns id = (false, none) ∧
    apdb.ActorForOutbox id = (none, none) ∧
    apdb.ActorForInbox id = (none, none) ∧
    apdb.OutboxForInbox id = (none, none) ∧
    apdb.Exists id = (false, none) ∧
    apdb.Get id = (none, none) ∧
    apdb.Create v = none ∧
    apdb.Update v = none ∧
    apdb.Delete id = none ∧
    apdb.GetOutbox inbox = (none, none) ∧
    apdb.SetOutbox page = none ∧
    apdb.NewId t = (none, none) ∧
    apdb.Followers id = (none, none) ∧
    apdb.Following id = (none, none) ∧
    apdb.Liked id = (none, none) :=
  ⟨rfl, rfl, rfl, rfl, rfl, rfl, rfl, rfl, rfl, rfl,
   rfl, rfl, rfl, rfl, rfl, rfl, rfl, rfl, rfl, rfl⟩

mutual

/-- Every node recorded by nodesTree lies at depth at least the depth of the
root. -/
theorem nodesTree_depth_ge (d : Nat) (t : ReplyTree) :
    ∀ p ∈ nodesTree d t, d ≤ p.2 := by
  match t with
  | ReplyTree.node i rs =>
    intro p hp
    rw [nodesTree] at hp
    rcases List.mem_cons.mp hp with h | h
    · subst h
      exact Nat.le_refl d
    · exact Nat.le_of_succ_le (nodesForest_depth_ge (d + 1) rs p h)

/-- Every node recorded by nodesForest lies at depth at least the depth of
the siblings. -/
theorem nodesForest_depth_ge (d : Nat) (ts : List ReplyTree) :
    ∀ p ∈ nodesForest d ts, d ≤ p.2 := by
  match ts with
  | [] =>
    intro p hp
    rw [nodesForest] at hp
    cases hp
  | t :: ts2 =>
    intro p hp
    rw [nodesForest] at hp
    rcases List.mem_append.mp hp with h | h
    · exact nodesTree_depth_ge d t p h
    · exact nodesForest_depth_ge d ts2 p h

end

mutual

/-- The traversal started at a node forwards exactly the nodes passing the
depth predicate. -/
theorem forwardTree_eq_filter (m d : Nat) (t : ReplyTree) :
    forwardTree m d t = ((nodesTree d t).filter (keep m)).map Prod.fst := by
  match t with
  | ReplyTree.node i rs =>
    rw [forwardTree, nodesTree]
    by_cases h : 0 < m ∧ m ≤ d
    · rw [if_pos h]
      have h0 : keep m (i, d) = false := by
        simp [keep]
        omega
      have hforest : (nodesForest (d + 1) rs).filter (keep m) = [] := by
        rw [List.filter_eq_nil_iff]
        intro p hp
        have hdp := nodesForest_depth_ge (d + 1) rs p hp
        simp [keep]
        omega
      simp [List.filter_cons, h0, hforest]
    · rw [if_neg h]
      have h1 : keep m (i, d) = true := by
        simp [keep]
        omega
      simp only [List.filter_cons, h1, if_true, List.map_cons]
      exact congrArg (i :: ·) (forwardForest_eq_filter m (d + 1) rs)

/-- The traversal over sibling replies forwards exactly the nodes passing the
depth predicate. -/
theorem forwardForest_eq_filter (m d : Nat) (ts : List ReplyTree) :
    forwardForest m d ts = ((nodesForest d ts).filter (keep m)).map Prod.fst := by
  match ts with
  | [] =>
    rw [forwardForest, nodesForest]
    rfl
  | t :: ts2 =>
    rw [forwardForest, nodesForest, List.filter_append, List.map_append,
      forwardTree_eq_filter m d t, forwardForest_eq_filter m d ts2]

end

/-- C7: for every reply chain and every configured depth, the
inbox-forwarding traversal terminates with an explicit result: it forwards
exactly the nodes whose depth passes the configured ceiling — a positive
depth m is a hard ceiling admitting only nodes at depth below m, deeper
branches being silently not forwarded rather than an error — and a configured
depth of zero forwards every node of the chain (unlimited). -/
theorem forwarding_traversal_bounded (m : Nat) (t : ReplyTree) :
    forwardTree m 0 t = ((nodesTree 0 t).filter (keep m)).map Prod.fst ∧
    forwardTree 0 0 t = (nodesTree 0 t).map Prod.fst := by
  refine ⟨forwardTree_eq_filter m 0 t, ?_⟩
  rw [forwardTree_eq_filter 0 0 t, List.filter_eq_self.mpr]
  intro a _
  rfl

end Apcore
